import Mathlib

/-!
Verification development for the Life in Weeks frontend client
(`src/dist/app.js`).  The file shallow-embeds the client's state, its
form-field parsing (JavaScript `parseInt(v) || null` semantics), the
backend-gateway handlers (`loadConfig`, `generatePreview`, `setWallpaper`,
`toggleSchedule`, `saveConfig`), the request builder `buildRequest`, and
the user-event step relation, and proves the spec's claims about them.

Remote calls are embedded by passing the call's outcome (`Except`) as an
explicit argument to the handler, which models the single resolution of
the corresponding promise.  Machine floats that only ever hold exact
screen/percentage arithmetic are modelled as rationals.
-/

namespace LifeInWeeks

/-! ## JavaScript primitive semantics -/

/-- Decimal digit test, between the code points of 0 and 9. -/
def isDecDigit (c : Char) : Bool :=
  decide (48 ≤ c.toNat) && decide (c.toNat ≤ 57)

/-- Numeric value of a decimal digit character. -/
def decDigitVal (c : Char) : ℕ := c.toNat - 48

/-- Hexadecimal digit test (for `parseInt`'s automatic `0x` radix). -/
def isHexDigit (c : Char) : Bool :=
  isDecDigit c || (decide (97 ≤ c.toNat) && decide (c.toNat ≤ 102))
    || (decide (65 ≤ c.toNat) && decide (c.toNat ≤ 70))

/-- Numeric value of a hexadecimal digit character. -/
def hexDigitVal (c : Char) : ℕ :=
  if isDecDigit c then decDigitVal c
  else if decide (97 ≤ c.toNat) then c.toNat - 97 + 10
  else c.toNat - 65 + 10

/-- The whitespace characters `parseInt` skips (common subset of JS
`StrWhiteSpace`: space, tab, LF, VT, FF, CR, NBSP). -/
def jsWhitespaceB (c : Char) : Bool :=
  decide (c = ' ') || decide (c = '\t') || decide (c = '\n')
    || decide (c = '\x0b') || decide (c = '\x0c') || decide (c = '\r')
    || decide (c = '\xa0')

/-- Accumulate the value of the longest digit run at the head of the list,
stopping at the first non-digit, exactly as `parseInt` consumes input. -/
def digitsVal (isD : Char → Bool) (dval : Char → ℕ) (base : ℕ) :
    List Char → ℕ → ℕ
  | [], acc => acc
  | c :: cs, acc =>
      if isD c then digitsVal isD dval base cs (acc * base + dval c) else acc

/-- Strip an optional leading sign, returning the sign as `±1`. -/
def stripSign (cs : List Char) : Int × List Char :=
  match cs with
  | c :: rest =>
      if c = '-' then (-1, rest)
      else if c = '+' then (1, rest)
      else (1, c :: rest)
  | [] => (1, [])

/-- Detect and strip a `0x` / `0X` hexadecimal marker. -/
def stripHex (cs : List Char) : Option (List Char) :=
  match cs with
  | c0 :: c1 :: rest =>
      if c0 = '0' ∧ (c1 = 'x' ∨ c1 = 'X') then some rest else none
  | _ => none

/-- Head of the list satisfies the predicate. -/
def headIs (p : Char → Bool) : List Char → Bool
  | c :: _ => p c
  | [] => false

/-- JavaScript `parseInt(s)` with no radix argument: skip leading
whitespace, read an optional sign, switch to base 16 after a `0x` marker,
then read the longest digit run; `none` models `NaN` (no digits). -/
def jsParseInt (s : String) : Option Int :=
  let cs := s.data.dropWhile jsWhitespaceB
  let sign := (stripSign cs).1
  let cs1 := (stripSign cs).2
  match stripHex cs1 with
  | some cs2 =>
      if headIs isHexDigit cs2 then
        some (sign * (digitsVal isHexDigit hexDigitVal 16 cs2 0 : ℤ))
      else none
  | none =>
      if headIs isDecDigit cs1 then
        some (sign * (digitsVal isDecDigit decDigitVal 10 cs1 0 : ℤ))
      else none

/-- `parseInt(v) || null` as used by `buildRequest` and `saveConfig`
(app.js lines 252-258 and 271-276): `NaN` and `0` are falsy and coerce to
`null`; any other parsed integer is kept. -/
def parseField (s : String) : Option Int :=
  match jsParseInt s with
  | none => none
  | some n => if n = 0 then none else some n

/-- `v || null` on a string: the empty string is falsy. -/
def strOrNull (s : String) : Option String :=
  if s = "" then none else some s

/-- MSB-first decimal digit characters of `n`, with explicit fuel (the
recursion is on the fuel, which any `fuel ≥ n` saturates). -/
def toDigitsAux : ℕ → ℕ → List Char
  | 0, _ => []
  | _ + 1, 0 => []
  | fuel + 1, n + 1 =>
      toDigitsAux fuel ((n + 1) / 10) ++ [Nat.digitChar ((n + 1) % 10)]

/-- Decimal rendering of a natural number, as JavaScript coerces a
non-negative integral number to a string. -/
def natToStr (n : ℕ) : String :=
  if n = 0 then "0" else ⟨toDigitsAux n n⟩

/-- Decimal rendering of an integer (JS number-to-string coercion for
integral values). -/
def intToStr (n : ℤ) : String :=
  if n < 0 then "-" ++ natToStr n.natAbs else natToStr n.toNat

/-- JavaScript `Math.round`: floor of `x + 1/2`. -/
def jsRound (q : ℚ) : ℤ := ⌊q + 1 / 2⌋

/-- The percent-complete stat of app.js lines 186-188:
`total_weeks > 0 ? Math.round((elapsed_weeks / total_weeks) * 100) : 0`. -/
def computePercent (elapsed total : ℕ) : ℤ :=
  if 0 < total then jsRound ((elapsed : ℚ) / (total : ℚ) * 100) else 0

/-- Insert a comma before every position whose suffix length is a positive
multiple of three: the effect of
`num.toString().replace(/\B(?=(\d\x7b3\x7d)+(?!\d))/g, ',')` on a digit
string (app.js line 284). -/
def insertCommas : List Char → List Char
  | [] => []
  | c :: cs =>
      c :: (if cs.length % 3 = 0 ∧ cs.length ≠ 0
            then ',' :: insertCommas cs else insertCommas cs)

/-- `formatNumber` of app.js lines 283-285 on a non-negative count. -/
def formatNumber (n : ℕ) : String :=
  ⟨insertCommas (natToStr n).data⟩

/-! ## Data model -/

/-- The `get_config` response shape (spec §6). -/
structure Config where
  dob : Option String
  lifespan_years : ℤ
  screen_width : ℤ
  screen_height : ℤ
  next_months : ℤ
  schedule_installed : Bool
  theme : String
  default_mode : Option String
deriving Repr, DecidableEq

/-- The `generate_preview` response shape (spec §6). -/
structure PreviewResponse where
  image_base64 : String
  title : String
  subtitle : String
  elapsed_weeks : ℕ
  remaining_weeks : ℕ
  total_weeks : ℕ
deriving Repr, DecidableEq

/-- The request object built by `buildRequest` (app.js lines 268-278). -/
structure GenerationRequest where
  mode : String
  dob : Option String
  lifespan : Option ℤ
  months : Option ℤ
  theme : String
  width : Option ℤ
  height : Option ℤ
deriving Repr, DecidableEq

/-- Screen environment read by `detectScreenResolution`:
`window.screen.width/height` and `window.devicePixelRatio`. -/
structure Screen where
  width : ℚ
  height : ℚ
  dpr : ℚ
deriving DecidableEq

/-- The client's mutable state: the module-level variables of app.js
(lines 8-10) together with the DOM elements the handlers read and write.
`consoleLog` collects `console.log`/`console.error` output. -/
structure ClientState where
  currentMode : String
  currentTheme : String
  hasPreview : Bool
  dobInput : String
  lifespanInput : String
  monthsInput : String
  widthInput : String
  heightInput : String
  scheduleToggleChecked : Bool
  generateBtnDisabled : Bool
  setWallpaperBtnDisabled : Bool
  previewImageSrc : String
  previewImageHidden : Bool
  previewPlaceholderHidden : Bool
  previewTitle : String
  previewSubtitle : String
  statElapsed : String
  statRemaining : String
  statPercent : String
  toastMessage : String
  toastClass : String
  lifeOnlyHidden : Bool
  monthsOnlyHidden : Bool
  consoleLog : List String
deriving Repr, DecidableEq

/-! ## Operations (app.js handlers) -/

/-- `showToast(message, type)` (app.js lines 290-297); the 3-second
auto-dismiss timer is real time, outside the state model. -/
def showToast (st : ClientState) (msg ty : String) : ClientState :=
  { st with toastMessage := msg, toastClass := "toast show " ++ ty }

/-- A `console.log` / `console.error` line. -/
def consoleError (st : ClientState) (msg : String) : ClientState :=
  { st with consoleLog := st.consoleLog ++ [msg] }

/-- `updateModeVisibility` (app.js lines 102-113): life-only fields are
visible iff mode is `life`, months-only iff mode is `next-months`. -/
def updateModeVisibility (st : ClientState) : ClientState :=
  { st with
    lifeOnlyHidden := !(st.currentMode = "life" : Bool),
    monthsOnlyHidden := !(st.currentMode = "next-months" : Bool) }

/-- `buildRequest` (app.js lines 268-278). -/
def buildRequest (st : ClientState) : GenerationRequest :=
  { mode := st.currentMode,
    dob := strOrNull st.dobInput,
    lifespan := parseField st.lifespanInput,
    months := parseField st.monthsInput,
    theme := st.currentTheme,
    width := parseField st.widthInput,
    height := parseField st.heightInput }

/-- `loadConfig` (app.js lines 118-148), applied to the resolution of the
`get_config` invocation.  On rejection only a console line is written. -/
def loadConfig (st : ClientState) (outcome : Except String Config) :
    ClientState :=
  match outcome with
  | .error e => consoleError st ("Could not load config, using defaults: " ++ e)
  | .ok c =>
      let st1 :=
        match c.dob with
        | some s => if s = "" then st else { st with dobInput := s }
        | none => st
      let st2 := { st1 with
        lifespanInput := intToStr c.lifespan_years,
        widthInput := intToStr c.screen_width,
        heightInput := intToStr c.screen_height,
        monthsInput := intToStr c.next_months,
        scheduleToggleChecked := c.schedule_installed,
        currentTheme := c.theme }
      match c.default_mode with
      | some m =>
          if m = "" then st2
          else updateModeVisibility { st2 with currentMode := m }
      | none => st2

/-- `detectScreenResolution` (app.js lines 153-159). -/
def detectScreenResolution (st : ClientState) (scr : Screen) : ClientState :=
  showToast
    { st with
      widthInput := intToStr (jsRound (scr.width * scr.dpr)),
      heightInput := intToStr (jsRound (scr.height * scr.dpr)) }
    "Screen resolution detected" "success"

/-- `generatePreview` (app.js lines 164-203), applied to the resolution of
the `generate_preview` invocation.  The `finally` block re-enables the
generate button on both paths. -/
def generatePreview (st : ClientState)
    (outcome : Except String PreviewResponse) : ClientState :=
  match outcome with
  | .ok r =>
      let st1 := { st with
        previewImageSrc := "data:image/png;base64," ++ r.image_base64,
        previewImageHidden := false,
        previewPlaceholderHidden := true,
        previewTitle := r.title,
        previewSubtitle := r.subtitle,
        statElapsed := formatNumber r.elapsed_weeks,
        statRemaining := formatNumber r.remaining_weeks,
        statPercent :=
          intToStr (computePercent r.elapsed_weeks r.total_weeks) ++ "%",
        setWallpaperBtnDisabled := false,
        hasPreview := true }
      { showToast st1 "Preview generated!" "success" with
        generateBtnDisabled := false }
  | .error e =>
      { consoleError (showToast st ("Error: " ++ e) "error")
          ("Generate preview error: " ++ e) with
        generateBtnDisabled := false }

/-- `saveConfig` (app.js lines 249-263), applied to the resolution of the
`save_config` invocation: its own `catch` swallows any failure, writing
only a console line; the state is otherwise untouched. -/
def saveConfig (st : ClientState) (outcome : Except String Unit) :
    ClientState :=
  match outcome with
  | .ok _ => st
  | .error e => consoleError st ("Save config error: " ++ e)

/-- `setWallpaper` (app.js lines 208-228), applied to the resolutions of
the `set_wallpaper_cmd` and (when reached) `save_config` invocations.  A
`set_wallpaper_cmd` rejection skips `saveConfig` and shows the error; a
`saveConfig` failure cannot reach the `catch`, so the success toast is
shown regardless.  The `finally` block re-enables the button. -/
def setWallpaper (st : ClientState) (wres : Except String String)
    (sres : Except String Unit) : ClientState :=
  match wres with
  | .ok _ =>
      { showToast (saveConfig st sres) "Wallpaper set successfully!" "success"
        with setWallpaperBtnDisabled := false }
  | .error e =>
      { consoleError (showToast st ("Error: " ++ e) "error")
          ("Set wallpaper error: " ++ e) with
        setWallpaperBtnDisabled := false }

/-- `toggleSchedule` (app.js lines 233-244): reads the toggle's current
(already flipped) value; on rejection flips it back. -/
def toggleSchedule (st : ClientState) (outcome : Except String String) :
    ClientState :=
  match outcome with
  | .ok m => showToast st m "success"
  | .error e =>
      consoleError
        (showToast { st with scheduleToggleChecked := !st.scheduleToggleChecked }
          ("Error: " ++ e) "error")
        ("Toggle schedule error: " ++ e)

/-- The three form fields wired to the auto-regenerate listener
(app.js lines 87-91). -/
inductive FormField where
  | dob
  | lifespan
  | months
deriving Repr, DecidableEq

/-- Write a new value into one of the three auto-regenerate fields. -/
def setField (st : ClientState) : FormField → String → ClientState
  | .dob, v => { st with dobInput := v }
  | .lifespan, v => { st with lifespanInput := v }
  | .months, v => { st with monthsInput := v }

/-- A backend invocation observable on the wire. -/
inductive BackendCall where
  | generate_preview (r : GenerationRequest)
deriving Repr, DecidableEq

/-- The `change` listener of app.js lines 92-96: after the DOM updates the
field, `generatePreview()` runs iff `hasPreview`; the second component
records the backend calls the event triggered. -/
def inputChange (st : ClientState) (f : FormField) (v : String)
    (outcome : Except String PreviewResponse) :
    ClientState × List BackendCall :=
  let st1 := setField st f v
  if st1.hasPreview then
    (generatePreview st1 outcome,
     [BackendCall.generate_preview (buildRequest st1)])
  else (st1, [])

/-- Modelled from the spec: the initial DOM state declared by
`index.html`, which is absent from the provided sources.  The module
variables `currentMode`, `currentTheme` and `hasPreview` take the values
of app.js lines 8-10; the apply-wallpaper control starts disabled (spec
§4.4: it is enabled "only after at least one successful preview in the
session"), the preview area shows the placeholder, and the form starts
empty. -/
def initialState : ClientState :=
  { currentMode := "year-end",
    currentTheme := "dark",
    hasPreview := false,
    dobInput := "",
    lifespanInput := "",
    monthsInput := "",
    widthInput := "",
    heightInput := "",
    scheduleToggleChecked := false,
    generateBtnDisabled := false,
    setWallpaperBtnDisabled := true,
    previewImageSrc := "",
    previewImageHidden := true,
    previewPlaceholderHidden := false,
    previewTitle := "",
    previewSubtitle := "",
    statElapsed := "",
    statRemaining := "",
    statPercent := "",
    toastMessage := "",
    toastClass := "toast",
    lifeOnlyHidden := true,
    monthsOnlyHidden := true,
    consoleLog := [] }

/-- `init` (app.js lines 44-49): listeners are installed (no state
change), then `loadConfig`, `updateModeVisibility`, and unconditionally
`detectScreenResolution`. -/
def initState (cfg : Except String Config) (scr : Screen) : ClientState :=
  detectScreenResolution (updateModeVisibility (loadConfig initialState cfg)) scr

/-- A user-triggered event together with the resolution of the remote
call(s) it performs. -/
inductive Event where
  | modeTabClick (m : String)
  | themeBtnClick (t : String)
  | detectResolutionClick (scr : Screen)
  | generateClick (outcome : Except String PreviewResponse)
  | setWallpaperClick (wres : Except String String) (sres : Except String Unit)
  | scheduleChange (b : Bool) (outcome : Except String String)
  | fieldChange (f : FormField) (v : String)
      (outcome : Except String PreviewResponse)

/-- One user event, handled atomically. -/
def step (st : ClientState) : Event → ClientState
  | .modeTabClick m => updateModeVisibility { st with currentMode := m }
  | .themeBtnClick t => { st with currentTheme := t }
  | .detectResolutionClick scr => detectScreenResolution st scr
  | .generateClick o => generatePreview st o
  | .setWallpaperClick w s => setWallpaper st w s
  | .scheduleChange b o => toggleSchedule { st with scheduleToggleChecked := b } o
  | .fieldChange f v o => (inputChange st f v o).1

/-- DOM gating: a `click` does not fire on a disabled button. -/
def eventEnabled (st : ClientState) : Event → Bool
  | .generateClick _ => !st.generateBtnDisabled
  | .setWallpaperClick _ _ => !st.setWallpaperBtnDisabled
  | _ => true

/-- States reachable in one session: the post-`init` state followed by any
sequence of enabled user events. -/
inductive Reachable : ClientState → Prop where
  | init (cfg : Except String Config) (scr : Screen) :
      Reachable (initState cfg scr)
  | step {st : ClientState} (e : Event) (h : Reachable st)
      (hg : eventEnabled st e = true) : Reachable (step st e)

/-! ## Parsing lemmas -/

/-- Value denoted by a decimal digit string (MSB first). -/
def decValue (cs : List Char) : ℕ :=
  digitsVal isDecDigit decDigitVal 10 cs 0

/-- The spec's "positive integer string": a non-empty string of decimal
digits denoting a non-zero value. -/
def isPosIntString (s : String) : Bool :=
  decide (s.data ≠ []) && s.data.all isDecDigit && decide (decValue s.data ≠ 0)

lemma isDecDigit_char_facts {c : Char} (h : isDecDigit c = true) :
    jsWhitespaceB c = false ∧ c ≠ '-' ∧ c ≠ '+' ∧ c ≠ 'x' ∧ c ≠ 'X' := by
  refine ⟨?_, ?_, ?_, ?_, ?_⟩
  · cases hw : jsWhitespaceB c
    · rfl
    · exfalso
      simp only [jsWhitespaceB, Bool.or_eq_true, decide_eq_true_eq] at hw
      rcases hw with ((((((h1 | h1) | h1) | h1) | h1) | h1) | h1) <;>
        subst h1 <;> exact absurd h (by decide)
  all_goals intro h1
  all_goals subst h1
  all_goals exact absurd h (by decide)

lemma digitsVal_append (isD : Char → Bool) (dval : Char → ℕ) (base : ℕ)
    (xs ys : List Char) (hx : ∀ c ∈ xs, isD c = true) (acc : ℕ) :
    digitsVal isD dval base (xs ++ ys) acc =
      digitsVal isD dval base ys (digitsVal isD dval base xs acc) := by
  induction xs generalizing acc with
  | nil => rfl
  | cons c cs ih =>
      have hc : isD c = true := hx c (by simp)
      simp only [List.cons_append, digitsVal, hc, if_true]
      exact ih (fun d hd => hx d (by simp [hd])) _

lemma toDigitsAux_zero (fuel : ℕ) : toDigitsAux fuel 0 = [] := by
  cases fuel <;> rfl

lemma digitChar_isDecDigit {d : ℕ} (h : d < 10) :
    isDecDigit (Nat.digitChar d) = true ∧ decDigitVal (Nat.digitChar d) = d := by
  interval_cases d <;> exact ⟨by decide, by decide⟩

lemma toDigitsAux_all (fuel : ℕ) :
    ∀ n, ∀ c ∈ toDigitsAux fuel n, isDecDigit c = true := by
  induction fuel with
  | zero => intro n c hc; simp [toDigitsAux] at hc
  | succ f ih =>
      intro n c hc
      cases n with
      | zero => simp [toDigitsAux] at hc
      | succ m =>
          simp only [toDigitsAux, List.mem_append, List.mem_singleton] at hc
          rcases hc with hc | hc
          · exact ih _ c hc
          · subst hc
            exact (digitChar_isDecDigit (Nat.mod_lt _ (by norm_num))).1

lemma toDigitsAux_val (fuel : ℕ) :
    ∀ n acc, n ≤ fuel →
      digitsVal isDecDigit decDigitVal 10 (toDigitsAux fuel n) acc =
        acc * 10 ^ (toDigitsAux fuel n).length + n := by
  induction fuel with
  | zero =>
      intro n acc h
      interval_cases n
      simp [toDigitsAux, digitsVal]
  | succ f ih =>
      intro n acc h
      cases n with
      | zero => simp [toDigitsAux, digitsVal]
      | succ m =>
          have hd : (m + 1) / 10 ≤ f := by
            have := Nat.div_lt_self (Nat.succ_pos m) (by norm_num : 1 < 10)
            omega
          have h10 : (m + 1) % 10 < 10 := Nat.mod_lt _ (by norm_num)
          obtain ⟨hdig, hval⟩ := digitChar_isDecDigit h10
          rw [show toDigitsAux (f + 1) (m + 1) =
                toDigitsAux f ((m + 1) / 10) ++ [Nat.digitChar ((m + 1) % 10)]
              from rfl,
            digitsVal_append _ _ _ _ _ (toDigitsAux_all f ((m + 1) / 10)),
            ih _ acc hd]
          simp only [digitsVal, hdig, if_true, hval, List.length_append,
            List.length_singleton, pow_succ, ← mul_assoc]
          generalize acc * 10 ^ (toDigitsAux f ((m + 1) / 10)).length = A
          omega

lemma jsParseInt_digitString (cs : List Char) (hne : cs ≠ [])
    (hall : ∀ c ∈ cs, isDecDigit c = true) :
    jsParseInt (String.mk cs) =
      some (digitsVal isDecDigit decDigitVal 10 cs 0 : ℤ) := by
  obtain ⟨c, cs', rfl⟩ : ∃ c cs', cs = c :: cs' := by
    cases cs with
    | nil => exact absurd rfl hne
    | cons c cs' => exact ⟨c, cs', rfl⟩
  have hc : isDecDigit c = true := hall c (by simp)
  obtain ⟨hws, hminus, hplus, hx, hX⟩ := isDecDigit_char_facts hc
  have hdrop : (c :: cs').dropWhile jsWhitespaceB = c :: cs' := by
    rw [List.dropWhile_cons, if_neg (by simp [hws])]
  have hsign : stripSign (c :: cs') = (1, c :: cs') := by
    simp [stripSign, hminus, hplus]
  have hhex : stripHex (c :: cs') = none := by
    cases cs' with
    | nil => rfl
    | cons c2 rest =>
        have hc2 := isDecDigit_char_facts (hall c2 (by simp))
        simp only [stripHex]
        rw [if_neg]
        rintro ⟨-, h2 | h2⟩
        · exact hc2.2.2.2.1 h2
        · exact hc2.2.2.2.2 h2
  simp only [jsParseInt, hdrop, hsign, hhex, headIs, hc, if_true, one_mul]

lemma natToStr_digitString (n : ℕ) (hn : 0 < n) :
    (natToStr n).data ≠ [] ∧
      (∀ c ∈ (natToStr n).data, isDecDigit c = true) ∧
      decValue (natToStr n).data = n := by
  have hne : n ≠ 0 := Nat.pos_iff_ne_zero.mp hn
  have hdata : (natToStr n).data = toDigitsAux n n := by
    simp [natToStr, hne]
  refine ⟨?_, ?_, ?_⟩
  · rw [hdata]
    obtain ⟨m, rfl⟩ : ∃ m, n = m + 1 := ⟨n - 1, by omega⟩
    simp [toDigitsAux]
  · rw [hdata]; exact toDigitsAux_all n n
  · rw [hdata]
    unfold decValue
    rw [toDigitsAux_val n n 0 le_rfl]
    simp

lemma jsParseInt_natToStr (n : ℕ) (hn : 0 < n) :
    jsParseInt (natToStr n) = some (n : ℤ) := by
  obtain ⟨hne, hall, hval⟩ := natToStr_digitString n hn
  have : natToStr n = String.mk (natToStr n).data := rfl
  rw [this, jsParseInt_digitString _ hne hall]
  unfold decValue at hval
  rw [hval]

lemma parseField_intToStr (k : ℤ) (hk : 0 < k) :
    parseField (intToStr k) = some k := by
  have hk' : 0 < k.toNat := by omega
  unfold intToStr
  rw [if_neg (by omega)]
  unfold parseField
  rw [jsParseInt_natToStr _ hk']
  show (if (k.toNat : ℤ) = 0 then none else some (k.toNat : ℤ)) = some k
  rw [if_neg (by omega)]
  congr 1
  omega

/-! ## C1: numeric form-field parsing -/

/-- C1 counterexample: the claim says any string that is not a positive
integer string parses to `null`, but the code's `parseInt(s) || null`
maps the non-positive-integer string `"-5"` to `-5`, not `null`. -/
theorem parseField_claim_counterexample :
    isPosIntString "-5" = false ∧ parseField "-5" = some (-5) :=
  ⟨by decide, by decide⟩

/-- C1 amended: `parseField s` is `null` exactly when `parseInt(s)` is
`NaN` or `0`; any other parsed value (including negative numbers and
values read from strings with trailing garbage) is kept; every positive
integer string parses to its value.  Malformed input never raises an
error: `parseField` is a total function into `Option`. -/
theorem parseField_spec (s : String) :
    (parseField s = none ↔ jsParseInt s = none ∨ jsParseInt s = some 0) ∧
    (∀ n : ℤ, jsParseInt s = some n → n ≠ 0 → parseField s = some n) ∧
    (isPosIntString s = true →
      parseField s = some ((decValue s.data : ℤ))) := by
  refine ⟨?_, ?_, ?_⟩
  · unfold parseField
    cases h : jsParseInt s with
    | none => simp
    | some n =>
        by_cases hn : n = 0 <;> simp [hn]
  · intro n h hn
    unfold parseField
    rw [h]
    show (if n = 0 then none else some n) = some n
    rw [if_neg hn]
  · intro h
    simp only [isPosIntString, Bool.and_eq_true, decide_eq_true_eq,
      List.all_eq_true] at h
    obtain ⟨⟨hne, hall⟩, hval⟩ := h
    have hmk : String.mk s.data = s := rfl
    have hparse : jsParseInt s = some ((decValue s.data : ℤ)) := by
      have := jsParseInt_digitString s.data hne (fun c hc => hall c hc)
      rwa [hmk] at this
    unfold parseField
    rw [hparse]
    show (if (decValue s.data : ℤ) = 0 then none
          else some ((decValue s.data : ℤ))) = some ((decValue s.data : ℤ))
    rw [if_neg (by exact_mod_cast hval)]

/-- Witness for C1: the positive integer string `"42"` parses to `42`. -/
theorem parseField_spec_witness :
    isPosIntString "42" = true ∧ decValue "42".data = 42 ∧
      parseField "42" = some ((decValue "42".data : ℤ)) :=
  ⟨by decide, by decide, (parseField_spec "42").2.2 (by decide)⟩

/-! ## State-preservation lemmas -/

lemma loadConfig_preserved (st : ClientState) (o : Except String Config) :
    (loadConfig st o).hasPreview = st.hasPreview ∧
    (loadConfig st o).setWallpaperBtnDisabled = st.setWallpaperBtnDisabled ∧
    (loadConfig st o).generateBtnDisabled = st.generateBtnDisabled := by
  cases o with
  | error e => exact ⟨rfl, rfl, rfl⟩
  | ok c =>
      obtain ⟨dob, ly, sw, sh, nm, si, th, dm⟩ := c
      cases dob <;> cases dm <;>
        simp only [loadConfig, updateModeVisibility] <;>
        first
          | (split_ifs <;> simp)
          | simp

lemma loadConfig_ok_fields (st : ClientState) (c : Config) (d m : String)
    (hd : c.dob = some d) (hd0 : d ≠ "")
    (hm : c.default_mode = some m) (hm0 : m ≠ "") :
    (loadConfig st (.ok c)).dobInput = d ∧
    (loadConfig st (.ok c)).lifespanInput = intToStr c.lifespan_years ∧
    (loadConfig st (.ok c)).monthsInput = intToStr c.next_months ∧
    (loadConfig st (.ok c)).widthInput = intToStr c.screen_width ∧
    (loadConfig st (.ok c)).heightInput = intToStr c.screen_height ∧
    (loadConfig st (.ok c)).currentTheme = c.theme ∧
    (loadConfig st (.ok c)).currentMode = m ∧
    (loadConfig st (.ok c)).scheduleToggleChecked = c.schedule_installed := by
  simp only [loadConfig, hd, hm, if_neg hd0, if_neg hm0, updateModeVisibility]
  exact ⟨trivial, trivial, trivial, trivial, trivial, trivial, trivial, trivial⟩

/-! ## Concrete fixtures for witnesses -/

/-- A concrete successful preview response with the spec's scenario
numbers. -/
def respA : PreviewResponse :=
  { image_base64 := "QUJD",
    title := "Life in Weeks",
    subtitle := "Week 1000 of 4160",
    elapsed_weeks := 1000,
    remaining_weeks := 3160,
    total_weeks := 4160 }

/-- A concrete screen environment. -/
def scrA : Screen := { width := 1920, height := 1080, dpr := 1 }

/-- A session whose configuration load failed. -/
def stInit : ClientState := initState (Except.error "backend unavailable") scrA

/-- The same session after one successful preview. -/
def stA : ClientState := step stInit (Event.generateClick (Except.ok respA))

/-! ## C2: config round-trip into the first request -/

/-- A concrete configuration whose persisted screen size differs from
the detected one. -/
def cfgB : Config :=
  { dob := some "1990-01-01",
    lifespan_years := 80,
    screen_width := 1111,
    screen_height := 2222,
    next_months := 6,
    schedule_installed := false,
    theme := "dark",
    default_mode := some "life" }

/-- C2 counterexample: with persisted `screen_width = 1111` but a
1920-wide screen at device pixel ratio 1, the first request built after
`init` carries width 1920, not the explicitly-set config value — `init`
runs `detectScreenResolution` after `loadConfig`. -/
theorem config_roundtrip_counterexample :
    cfgB.screen_width = 1111 ∧
      (buildRequest (initState (Except.ok cfgB) scrA)).width = some 1920 ∧
      (buildRequest (initState (Except.ok cfgB) scrA)).width ≠
        some cfgB.screen_width := by
  have h : jsRound ((1920 : ℚ) * 1) = 1920 := by norm_num [jsRound]
  have hw : (buildRequest (initState (Except.ok cfgB) scrA)).width =
      some 1920 := by
    show parseField (intToStr (jsRound ((1920 : ℚ) * 1))) = some 1920
    rw [h]
    decide
  exact ⟨rfl, hw, by rw [hw]; decide⟩

/-- C2 amended: every explicitly-set config field except the screen size
(mode, date of birth, lifespan, months, theme) reaches the request
unmodified, for positive numeric values and non-empty strings; the width
and height of the request come from the screen detection `init` performs
after loading, not from the configuration. -/
theorem config_roundtrip_amended (c : Config) (scr : Screen) (d m : String)
    (hd : c.dob = some d) (hd0 : d ≠ "")
    (hm : c.default_mode = some m) (hm0 : m ≠ "")
    (hl : 0 < c.lifespan_years) (hn : 0 < c.next_months) :
    (buildRequest (initState (.ok c) scr)).mode = m ∧
    (buildRequest (initState (.ok c) scr)).dob = some d ∧
    (buildRequest (initState (.ok c) scr)).lifespan =
      some c.lifespan_years ∧
    (buildRequest (initState (.ok c) scr)).months = some c.next_months ∧
    (buildRequest (initState (.ok c) scr)).theme = c.theme ∧
    (buildRequest (initState (.ok c) scr)).width =
      parseField (intToStr (jsRound (scr.width * scr.dpr))) ∧
    (buildRequest (initState (.ok c) scr)).height =
      parseField (intToStr (jsRound (scr.height * scr.dpr))) := by
  obtain ⟨h1, h2, h3, _, _, h6, h7, _⟩ :=
    loadConfig_ok_fields initialState c d m hd hd0 hm hm0
  refine ⟨?_, ?_, ?_, ?_, ?_, rfl, rfl⟩
  · show (loadConfig initialState (.ok c)).currentMode = m
    exact h7
  · show strOrNull (loadConfig initialState (.ok c)).dobInput = some d
    rw [h1]
    simp [strOrNull, hd0]
  · show parseField (loadConfig initialState (.ok c)).lifespanInput =
      some c.lifespan_years
    rw [h2]
    exact parseField_intToStr _ hl
  · show parseField (loadConfig initialState (.ok c)).monthsInput =
      some c.next_months
    rw [h3]
    exact parseField_intToStr _ hn
  · show (loadConfig initialState (.ok c)).currentTheme = c.theme
    exact h6

/-- Witness for C2 (amended) at a concrete config and screen. -/
theorem config_roundtrip_amended_witness :
    cfgB.dob = some "1990-01-01" ∧ (0 : ℤ) < cfgB.lifespan_years ∧
      (buildRequest (initState (Except.ok cfgB) scrA)).lifespan =
        some cfgB.lifespan_years :=
  ⟨rfl, by decide,
    (config_roundtrip_amended cfgB scrA "1990-01-01" "life" rfl (by decide)
      rfl (by decide) (by decide) (by decide)).2.2.1⟩

/-! ## C3: percent-complete computation -/

/-- C3: after a successful preview the percent stat shows
`computePercent`, which is 0 when the total is 0 and
`round(elapsed/total*100)` (floor of the value plus one half) otherwise;
at elapsed 1300 of total 4160 it is 31. -/
theorem computePercent_correct :
    (∀ e : ℕ, computePercent e 0 = 0) ∧
    (∀ (st : ClientState) (r : PreviewResponse),
      (generatePreview st (.ok r)).statPercent =
        intToStr (computePercent r.elapsed_weeks r.total_weeks) ++ "%") ∧
    (∀ e t : ℕ, 0 < t →
      computePercent e t = ⌊(e : ℚ) / (t : ℚ) * 100 + 1 / 2⌋) ∧
    computePercent 1300 4160 = 31 := by
  refine ⟨?_, ?_, ?_, ?_⟩
  · intro e; simp [computePercent]
  · intro st r; rfl
  · intro e t ht; simp [computePercent, ht, jsRound]
  · norm_num [computePercent, jsRound]

/-- Witness for C3 at elapsed 1300, total 4160. -/
theorem computePercent_correct_witness :
    0 < 4160 ∧
      computePercent 1300 4160 =
        ⌊((1300 : ℕ) : ℚ) / ((4160 : ℕ) : ℚ) * 100 + 1 / 2⌋ :=
  ⟨by norm_num, computePercent_correct.2.2.1 1300 4160 (by norm_num)⟩

/-! ## C4: preview failure leaves preview state unchanged -/

/-- C4: when `generate_preview` rejects, the client shows an error toast
and leaves the preview image, its visibility, title, subtitle, the three
stats, `hasPreview` and the apply-wallpaper enablement exactly as they
were. -/
theorem generatePreview_failure_preserves (st : ClientState) (e : String) :
    (generatePreview st (.error e)).previewImageSrc = st.previewImageSrc ∧
    (generatePreview st (.error e)).previewImageHidden = st.previewImageHidden ∧
    (generatePreview st (.error e)).previewPlaceholderHidden =
      st.previewPlaceholderHidden ∧
    (generatePreview st (.error e)).previewTitle = st.previewTitle ∧
    (generatePreview st (.error e)).previewSubtitle = st.previewSubtitle ∧
    (generatePreview st (.error e)).statElapsed = st.statElapsed ∧
    (generatePreview st (.error e)).statRemaining = st.statRemaining ∧
    (generatePreview st (.error e)).statPercent = st.statPercent ∧
    (generatePreview st (.error e)).hasPreview = st.hasPreview ∧
    (generatePreview st (.error e)).setWallpaperBtnDisabled =
      st.setWallpaperBtnDisabled ∧
    (generatePreview st (.error e)).toastMessage = "Error: " ++ e ∧
    (generatePreview st (.error e)).toastClass = "toast show error" :=
  ⟨rfl, rfl, rfl, rfl, rfl, rfl, rfl, rfl, rfl, rfl, rfl, rfl⟩

/-! ## C5: schedule toggle revert -/

/-- C5: a `scheduleChange` to value `b` whose `toggle_schedule` call
succeeds keeps the toggle at `b` and shows the confirmation as a success
toast; a rejection reverts the toggle to `!b` and shows an error toast. -/
theorem toggleSchedule_reverts (st : ClientState) (b : Bool)
    (msg err : String) :
    (step st (.scheduleChange b (.ok msg))).scheduleToggleChecked = b ∧
    (step st (.scheduleChange b (.ok msg))).toastMessage = msg ∧
    (step st (.scheduleChange b (.ok msg))).toastClass =
      "toast show success" ∧
    (step st (.scheduleChange b (.error err))).scheduleToggleChecked = !b ∧
    (step st (.scheduleChange b (.error err))).toastMessage =
      "Error: " ++ err ∧
    (step st (.scheduleChange b (.error err))).toastClass =
      "toast show error" :=
  ⟨rfl, rfl, rfl, rfl, rfl, rfl⟩

/-! ## C6: persistConfig failures are silent and do not propagate -/

/-- C6: a `save_config` rejection only appends a console line (the state
is otherwise untouched, in particular the toast), and a `setWallpaper`
whose `set_wallpaper_cmd` call succeeded ends in the success toast no
matter how the subsequent `saveConfig` resolves. -/
theorem saveConfig_silent (st : ClientState) (e msg : String)
    (o : Except String Unit) :
    (∃ l, saveConfig st (.error e) = { st with consoleLog := l }) ∧
    (saveConfig st (.error e)).toastMessage = st.toastMessage ∧
    (saveConfig st (.error e)).toastClass = st.toastClass ∧
    (setWallpaper st (.ok msg) o).toastMessage =
      "Wallpaper set successfully!" ∧
    (setWallpaper st (.ok msg) o).toastClass = "toast show success" :=
  ⟨⟨st.consoleLog ++ ["Save config error: " ++ e], rfl⟩, rfl, rfl, rfl, rfl⟩

/-! ## C9: screen detection overwrites persisted resolution -/

/-- C9: whatever `get_config` returned (or if it failed), `init` ends by
running `detectScreenResolution`, so the width and height fields — and
hence the width and height of the first built request — come from
`round(screen dimension times devicePixelRatio)`, not from the persisted
configuration. -/
theorem init_overwrites_resolution (cfg : Except String Config)
    (scr : Screen) :
    (initState cfg scr).widthInput = intToStr (jsRound (scr.width * scr.dpr)) ∧
    (initState cfg scr).heightInput =
      intToStr (jsRound (scr.height * scr.dpr)) ∧
    (buildRequest (initState cfg scr)).width =
      parseField (intToStr (jsRound (scr.width * scr.dpr))) ∧
    (buildRequest (initState cfg scr)).height =
      parseField (intToStr (jsRound (scr.height * scr.dpr))) :=
  ⟨rfl, rfl, rfl, rfl⟩

/-! ## C7: hasPreview is monotone within a session -/

lemma initState_hasPreview (cfg : Except String Config) (scr : Screen) :
    (initState cfg scr).hasPreview = false := by
  show (loadConfig initialState cfg).hasPreview = false
  rw [(loadConfig_preserved initialState cfg).1]
  rfl

lemma setField_preserves (st : ClientState) (f : FormField) (v : String) :
    (setField st f v).hasPreview = st.hasPreview ∧
      (setField st f v).setWallpaperBtnDisabled =
        st.setWallpaperBtnDisabled := by
  cases f <;> exact ⟨rfl, rfl⟩

lemma step_hasPreview_mono (st : ClientState) (e : Event)
    (h : st.hasPreview = true) : (step st e).hasPreview = true := by
  cases e with
  | modeTabClick m => exact h
  | themeBtnClick t => exact h
  | detectResolutionClick scr => exact h
  | generateClick o =>
      cases o with
      | ok r => rfl
      | error s => exact h
  | setWallpaperClick w s =>
      cases w with
      | ok m =>
          cases s with
          | ok u => exact h
          | error s2 => exact h
      | error e2 => exact h
  | scheduleChange b o =>
      cases o with
      | ok m => exact h
      | error e2 => exact h
  | fieldChange f v o =>
      have hf := (setField_preserves st f v).1
      show ((inputChange st f v o).1).hasPreview = true
      simp only [inputChange, hf, h, if_true]
      cases o with
      | ok r => rfl
      | error e2 => exact hf.trans h

lemma step_hasPreview_new (st : ClientState) (e : Event)
    (h0 : st.hasPreview = false) (h1 : (step st e).hasPreview = true) :
    ∃ r, e = Event.generateClick (Except.ok r) := by
  cases e with
  | modeTabClick m => rw [show (step st (.modeTabClick m)).hasPreview =
      st.hasPreview from rfl, h0] at h1; cases h1
  | themeBtnClick t => rw [show (step st (.themeBtnClick t)).hasPreview =
      st.hasPreview from rfl, h0] at h1; cases h1
  | detectResolutionClick scr =>
      rw [show (step st (.detectResolutionClick scr)).hasPreview =
        st.hasPreview from rfl, h0] at h1; cases h1
  | generateClick o =>
      cases o with
      | ok r => exact ⟨r, rfl⟩
      | error s =>
          rw [show (step st (.generateClick (.error s))).hasPreview =
            st.hasPreview from rfl, h0] at h1
          cases h1
  | setWallpaperClick w s =>
      exfalso
      cases w with
      | ok m =>
          cases s with
          | ok u =>
              rw [show (step st (.setWallpaperClick (.ok m) (.ok u))).hasPreview
                = st.hasPreview from rfl, h0] at h1
              cases h1
          | error s2 =>
              rw [show (step st (.setWallpaperClick (.ok m)
                (.error s2))).hasPreview = st.hasPreview from rfl, h0] at h1
              cases h1
      | error e2 =>
          rw [show (step st (.setWallpaperClick (.error e2) s)).hasPreview =
            st.hasPreview from rfl, h0] at h1
          cases h1
  | scheduleChange b o =>
      exfalso
      cases o with
      | ok m =>
          rw [show (step st (.scheduleChange b (.ok m))).hasPreview =
            st.hasPreview from rfl, h0] at h1
          cases h1
      | error e2 =>
          rw [show (step st (.scheduleChange b (.error e2))).hasPreview =
            st.hasPreview from rfl, h0] at h1
          cases h1
  | fieldChange f v o =>
      exfalso
      have hp : (setField st f v).hasPreview = false :=
        (setField_preserves st f v).1.trans h0
      have h1' : ((inputChange st f v o).1).hasPreview = true := h1
      simp only [inputChange] at h1'
      rw [if_neg (by simp [hp])] at h1'
      have h2 : (setField st f v).hasPreview = true := h1'
      rw [hp] at h2
      cases h2

/-- C7: `hasPreview` starts false after `init`, every event preserves it
once true, and the only event that turns it from false to true is a
successful `generatePreview`. -/
theorem hasPreview_lifecycle :
    (∀ (cfg : Except String Config) (scr : Screen),
      (initState cfg scr).hasPreview = false) ∧
    (∀ (st : ClientState) (e : Event),
      st.hasPreview = true → (step st e).hasPreview = true) ∧
    (∀ (st : ClientState) (e : Event),
      st.hasPreview = false → (step st e).hasPreview = true →
        ∃ r, e = Event.generateClick (Except.ok r)) :=
  ⟨initState_hasPreview, step_hasPreview_mono, step_hasPreview_new⟩

/-- Witness for C7: after a successful preview, a further event keeps
`hasPreview` true. -/
theorem hasPreview_lifecycle_witness :
    stA.hasPreview = true ∧
      (step stA (Event.themeBtnClick "terminal")).hasPreview = true :=
  ⟨rfl, hasPreview_lifecycle.2.1 stA (Event.themeBtnClick "terminal") rfl⟩

/-! ## C8: apply-wallpaper only after a successful preview -/

lemma reachable_enabled_implies_preview {st : ClientState}
    (h : Reachable st) :
    st.setWallpaperBtnDisabled = false → st.hasPreview = true := by
  induction h with
  | init cfg scr =>
      intro hd
      exfalso
      have h1 : (initState cfg scr).setWallpaperBtnDisabled = true := by
        show (loadConfig initialState cfg).setWallpaperBtnDisabled = true
        rw [(loadConfig_preserved initialState cfg).2.1]
        rfl
      rw [h1] at hd
      cases hd
  | @step st' e hr hg ih =>
      cases e with
      | modeTabClick m => exact fun hd => ih hd
      | themeBtnClick t => exact fun hd => ih hd
      | detectResolutionClick scr => exact fun hd => ih hd
      | generateClick o =>
          cases o with
          | ok r => exact fun _ => rfl
          | error s => exact fun hd => ih hd
      | setWallpaperClick w s =>
          intro _
          have hd : st'.setWallpaperBtnDisabled = false := by
            simpa [eventEnabled] using hg
          have hp := ih hd
          cases w with
          | ok m =>
              cases s with
              | ok u => exact hp
              | error s2 => exact hp
          | error e2 => exact hp
      | scheduleChange b o =>
          cases o with
          | ok m => exact fun hd => ih hd
          | error e2 => exact fun hd => ih hd
      | fieldChange f v o =>
          have hf := (setField_preserves st' f v).1
          have hfd := (setField_preserves st' f v).2
          show ((inputChange st' f v o).1).setWallpaperBtnDisabled = false →
            ((inputChange st' f v o).1).hasPreview = true
          simp only [inputChange]
          cases hp : (setField st' f v).hasPreview with
          | true =>
              rw [if_pos rfl]
              cases o with
              | ok r => exact fun _ => rfl
              | error e2 => exact fun _ => hp
          | false =>
              rw [if_neg (by simp)]
              intro hd
              have hd' : st'.setWallpaperBtnDisabled = false := by
                rw [← hfd]
                exact hd
              exact absurd (hf.trans (ih hd')) (by simp [hp])

/-- The spec's §8 preview scenario: elapsed 1000, remaining 3160, total
4160 weeks, with arbitrary image and text payloads. -/
def respScenario (img t sub : String) : PreviewResponse :=
  { image_base64 := img,
    title := t,
    subtitle := sub,
    elapsed_weeks := 1000,
    remaining_weeks := 3160,
    total_weeks := 4160 }

/-- C8: in every reachable session state the apply-wallpaper control is
enabled only if `hasPreview` is already true (which, by the `hasPreview`
lifecycle, means a `generatePreview` call succeeded earlier); and a
successful preview with elapsed 1000, remaining 3160, total 4160 shows
the stats "1,000", "3,160" and "24%" and enables the control. -/
theorem setWallpaper_requires_preview :
    (∀ st : ClientState, Reachable st →
      st.setWallpaperBtnDisabled = false → st.hasPreview = true) ∧
    (∀ (st : ClientState) (img t sub : String),
      (generatePreview st (.ok (respScenario img t sub))).statElapsed =
        "1,000" ∧
      (generatePreview st (.ok (respScenario img t sub))).statRemaining =
        "3,160" ∧
      (generatePreview st (.ok (respScenario img t sub))).statPercent =
        "24%" ∧
      (generatePreview st
        (.ok (respScenario img t sub))).setWallpaperBtnDisabled = false) := by
  constructor
  · exact fun st h => reachable_enabled_implies_preview h
  · intro st img t sub
    have h24 : computePercent 1000 4160 = 24 := by
      norm_num [computePercent, jsRound]
    refine ⟨?_, ?_, ?_, rfl⟩
    · show formatNumber 1000 = "1,000"
      decide
    · show formatNumber 3160 = "3,160"
      decide
    · show intToStr (computePercent 1000 4160) ++ "%" = "24%"
      rw [h24]
      decide

/-- Witness for C8: the concrete post-preview state `stA` is reachable,
has the control enabled, and indeed has a preview. -/
theorem setWallpaper_requires_preview_witness :
    stA.setWallpaperBtnDisabled = false ∧ stA.hasPreview = true :=
  ⟨rfl,
    setWallpaper_requires_preview.1 stA
      (Reachable.step (Event.generateClick (Except.ok respA))
        (Reachable.init (Except.error "backend unavailable") scrA) rfl)
      rfl⟩

/-! ## C10: auto-regenerate on field change iff a preview exists -/

/-- C10: a `change` event on the date-of-birth, lifespan or months field
triggers exactly one `generate_preview` call (for the request built from
the updated form) when `hasPreview` is true, and no backend call at all
when it is false. -/
theorem inputChange_iff_preview (st : ClientState) (f : FormField)
    (v : String) (o : Except String PreviewResponse) :
    ((inputChange st f v o).2 =
        [BackendCall.generate_preview (buildRequest (setField st f v))] ↔
      st.hasPreview = true) ∧
    ((inputChange st f v o).2 = [] ↔ st.hasPreview = false) := by
  have hf : (setField st f v).hasPreview = st.hasPreview := by
    cases f <;> rfl
  simp only [inputChange, hf]
  by_cases h : st.hasPreview <;> simp [h]

/-- Witness for C10: in a session with a successful preview, changing the
date of birth fires one `generate_preview` call. -/
theorem inputChange_iff_preview_witness :
    stA.hasPreview = true ∧
      (inputChange stA FormField.dob "1990-05-05" (Except.ok respA)).2 =
        [BackendCall.generate_preview
          (buildRequest (setField stA FormField.dob "1990-05-05"))] :=
  ⟨rfl,
    (inputChange_iff_preview stA FormField.dob "1990-05-05"
      (Except.ok respA)).1.mpr rfl⟩

end LifeInWeeks
